import Mathlib

/-!
Verification development for the fastapi_zero backend.

We give a shallow embedding of the authentication core and the user/todo
store operations of the repository (src/fastapi_zero), and settle the
frozen claims about them.  The relational store is modelled as a list of
records in insertion order; a `select ... where` with no `order by`
returns rows in that order, `session.scalar` returns the first row.
Machine time is modelled as `Nat` seconds (unix timestamps).
-/

/-- An HTTP error raised by the application (`HTTPException`): a status
code and a detail string. -/
structure HTTPErr where
  status : Nat
  detail : String
deriving DecidableEq, Repr

/-- Modelled from the spec: the password-hashing engine behind
`get_password_hash` / `verify_password` in src/fastapi_zero/security.py is
the external `pwdlib` Argon2 hasher (`PasswordHash.recommended()`), whose
code is not under src/.  Per spec section 4.1 the digest is a salted string
such that `verify(plaintext, digest)` is true iff the plaintext matches and
is false, never an exception, on mismatch or malformed digest.  We model
the idealized salted hash: the digest records the (sanitized) salt and an
idealized MAC of the password; the MAC is modelled as injective. -/
def get_password_hash (salt : String) (password : String) : String :=
  String.mk ('$' :: (salt.data.filter (fun c => c ≠ '$')) ++ '$' :: password.data)

/-- Modelled from the spec: companion of `get_password_hash` (see its
doc comment).  Parses the digest (salt part up to the second dollar sign,
MAC part after it) and compares the MAC recomputed from the candidate
password; any string that does not parse as a digest yields `false`. -/
def verify_password (plain_password : String) (hashed_password : String) : Bool :=
  match hashed_password.data with
  | '$' :: rest => (rest.dropWhile (fun c => c ≠ '$')) == '$' :: plain_password.data
  | _ => false

/-- src/fastapi_zero/security.py: `SECRET_KEY = 'my-secret-key'`. -/
def SECRET_KEY : String := "my-secret-key"

/-- src/fastapi_zero/security.py: `ALGORITHM = 'HS256'`. -/
def ALGORITHM : String := "HS256"

/-- src/fastapi_zero/security.py: `ACCESS_TOKEN_EXPIRE_MINUTES = 30`. -/
def ACCESS_TOKEN_EXPIRE_MINUTES : Nat := 30

/-- The JWT payload fields this application reads: the `sub` claim (absent
or a string) and the `exp` claim (absent or a unix timestamp).  Other
payload keys are never consulted by the code under src/. -/
structure JwtPayload where
  sub : Option String
  exp : Option Nat
deriving DecidableEq, Repr

/-- A token string, as far as JWT decoding distinguishes them: either a
structurally valid JWT (header algorithm, payload, signing key) or a
string that does not parse as a JWT at all. -/
inductive TokenString where
  | jwt (alg : String) (payload : JwtPayload) (key : String)
  | malformed (s : String)
deriving DecidableEq, Repr

/-- The PyJWT exceptions that `jwt.decode` can raise on the inputs this
application passes it.  `DecodeError` and its subclass
`InvalidSignatureError` are the only ones the application catches;
`ExpiredSignatureError` and `InvalidAlgorithmError` subclass
`InvalidTokenError` directly, not `DecodeError`. -/
inductive JwtError where
  | decodeError
  | invalidSignature
  | expiredSignature
  | invalidAlgorithm
deriving DecidableEq, Repr

/-- Whether a PyJWT exception is (a subclass of) `DecodeError` — the only
exception class the `except DecodeError` clause in `get_current_user`
catches. -/
def JwtError.isDecodeError : JwtError → Bool
  | .decodeError => true
  | .invalidSignature => true
  | .expiredSignature => false
  | .invalidAlgorithm => false

/-- PyJWT `jwt.decode(token, key, algorithms)` on the inputs this
application passes it: a non-JWT string raises `DecodeError`; a header
algorithm other than the allowed one raises `InvalidAlgorithmError`; a
wrong signing key raises `InvalidSignatureError`; then, if an `exp` claim
is present, it is compared against the current clock (PyJWT raises
`ExpiredSignatureError` when `exp <= now`, with zero leeway); otherwise
the payload is returned.  Signature verification precedes claim
validation, as in PyJWT. -/
def jwtDecode (token : TokenString) (key : String) (algorithms : String)
    (now : Nat) : Except JwtError JwtPayload :=
  match token with
  | .malformed _ => .error .decodeError
  | .jwt alg payload k =>
    if alg ≠ algorithms then .error .invalidAlgorithm
    else if k ≠ key then .error .invalidSignature
    else
      match payload.exp with
      | some e => if e ≤ now then .error .expiredSignature else .ok payload
      | none => .ok payload

/-- src/fastapi_zero/security.py `create_access_token`: copies the data
(we carry only its `sub` key, the only one the application ever reads),
adds `exp = now + 30 minutes`, and signs with the secret key and
algorithm.  `issuedAt` is the clock at the moment of issue, in seconds. -/
def create_access_token (data_sub : Option String) (issuedAt : Nat) : TokenString :=
  .jwt ALGORITHM ⟨data_sub, some (issuedAt + ACCESS_TOKEN_EXPIRE_MINUTES * 60)⟩ SECRET_KEY

/-- A user row (src/fastapi_zero/models.py `User`).  Timestamps are unix
seconds set by the store. -/
structure UserRec where
  id : Nat
  username : String
  email : String
  password : String
  created_at : Nat
  updated_at : Nat
deriving DecidableEq, Repr

/-- The `HTTPException` raised by `get_current_user` on every
authentication failure. -/
def credentials_exception : HTTPErr :=
  ⟨401, "Could not validate credentials"⟩

/-- Outcome of `get_current_user`: an authenticated user, a raised
`HTTPException`, or an exception escaping the function uncaught. -/
inductive AuthResult where
  | ok (u : UserRec)
  | httpError (e : HTTPErr)
  | uncaught (e : JwtError)
deriving DecidableEq, Repr

/-- src/fastapi_zero/security.py `get_current_user`: decodes the token
with the secret key and algorithm; the `except DecodeError` clause turns
`DecodeError` (and its subclasses) into the 401 credentials exception,
while any other exception from `decode` escapes uncaught; a payload whose
`sub` is absent or falsy (the empty string) raises the credentials
exception; otherwise the first user whose email equals the subject is
looked up, absence again raising the credentials exception. -/
def get_current_user (db : List UserRec) (token : TokenString) (now : Nat) : AuthResult :=
  match jwtDecode token SECRET_KEY ALGORITHM now with
  | .error e =>
    if e.isDecodeError then .httpError credentials_exception
    else .uncaught e
  | .ok payload =>
    match payload.sub with
    | none => .httpError credentials_exception
    | some s =>
      if s = "" then .httpError credentials_exception
      else
        match db.find? (fun u => u.email == s) with
        | none => .httpError credentials_exception
        | some u => .ok u

/-- src/fastapi_zero/routers/users.py `create_user`: `session.scalar` of a
`select` with no order returns the first stored row whose username or
email matches the request; if that row matches the username, 409
"Username already exists"; else if it matches the email, 409
"Email already exists"; with no matching row a new user is inserted with
the hashed password and store-generated id and timestamps.  The result
pairs the response with the post-request store. -/
def create_user (db : List UserRec) (username email password : String)
    (salt : String) (newId now : Nat) : Except HTTPErr UserRec × List UserRec :=
  match db.find? (fun r => r.username == username || r.email == email) with
  | some r =>
    if r.username == username then
      (.error ⟨409, "Username already exists"⟩, db)
    else if r.email == email then
      (.error ⟨409, "Email already exists"⟩, db)
    else
      let newUser : UserRec :=
        ⟨newId, username, email, get_password_hash salt password, now, now⟩
      (.ok newUser, db ++ [newUser])
  | none =>
    let newUser : UserRec :=
      ⟨newId, username, email, get_password_hash salt password, now, now⟩
    (.ok newUser, db ++ [newUser])

/-- src/fastapi_zero/routers/users.py `update_user`: a caller whose id
differs from the path id gets 403 "Not enough permissions" before
anything is written; otherwise username/email/password are overwritten
(password re-hashed) and committed, the store's unique constraints
raising `IntegrityError` — mapped to a 409 — when another row holds the
new username or email.  `current` is the authenticated caller's row. -/
def update_user (db : List UserRec) (user_id : Nat)
    (username email password : String) (current : UserRec)
    (salt : String) (now : Nat) : Except HTTPErr UserRec × List UserRec :=
  if current.id ≠ user_id then
    (.error ⟨403, "Not enough permissions"⟩, db)
  else
    let updated : UserRec :=
      { current with
        email := email
        username := username
        password := get_password_hash salt password
        updated_at := now }
    if db.any (fun r => r.id != current.id && (r.username == username || r.email == email)) then
      (.error ⟨409, "Username or email already exists"⟩, db)
    else
      (.ok updated, db.map (fun r => if r.id = current.id then updated else r))

/-- A todo row (src/fastapi_zero/models.py `Todo`).  `state` is the
five-valued task-state enum. -/
inductive TodoState where
  | draft
  | todo
  | doing
  | done
  | trash
deriving DecidableEq, Repr

/-- A todo row (src/fastapi_zero/models.py `Todo`): id, title,
description, state, owning user id, and store-managed timestamps. -/
structure TodoRec where
  id : Nat
  title : String
  description : String
  state : TodoState
  user_id : Nat
  created_at : Nat
  updated_at : Nat
deriving DecidableEq, Repr

/-- src/fastapi_zero/routers/users.py `delete_user`: a caller whose id
differs from the path id gets 403 "Not enough permissions"; otherwise the
caller's row is removed and, by the `all, delete-orphan` cascade on
`User.todos` (src/fastapi_zero/models.py), so are all todos it owns. -/
def delete_user (db : List UserRec) (todos : List TodoRec) (user_id : Nat)
    (current : UserRec) : Except HTTPErr String × List UserRec × List TodoRec :=
  if current.id ≠ user_id then
    (.error ⟨403, "Not enough permissions"⟩, db, todos)
  else
    (.ok "User deleted",
     db.filter (fun r => r.id != current.id),
     todos.filter (fun t => t.user_id != current.id))

/-- src/fastapi_zero/schemas.py `FilterPage` after validation: pagination
values with `offset >= 0` and `limit >= 0` enforced by the schema. -/
structure FilterPage where
  offset : Nat
  limit : Nat
deriving DecidableEq, Repr

/-- src/fastapi_zero/schemas.py `FilterPage` boundary validation:
`offset` defaults to 0, `limit` defaults to 10, and pydantic's
`Field(ge=0)` rejects a negative value for either before any handler
runs. -/
def FilterPage.validate (offset? limit? : Option Int) : Except String FilterPage :=
  let o := offset?.getD 0
  let l := limit?.getD 10
  if o < 0 then .error "Input should be greater than or equal to 0"
  else if l < 0 then .error "Input should be greater than or equal to 0"
  else .ok ⟨o.toNat, l.toNat⟩

/-- src/fastapi_zero/routers/users.py `read_users`:
`select(User).offset(offset).limit(limit)` over the user table in
insertion order; the caller must already be an authenticated user
(`current_user` dependency), which the listing itself does not otherwise
use. -/
def read_users (db : List UserRec) (current_user : UserRec) (f : FilterPage) : List UserRec :=
  (db.drop f.offset).take f.limit

/-- src/fastapi_zero/schemas.py `TodoUpdate` after
`model_dump(exclude_unset=True)`: each field of the pydantic model is
`X | None = None`, so a body field can be absent (outer `none`; dropped
by `exclude_unset`), explicitly `null` (`some none`; pydantic accepts it
and `exclude_unset` retains it), or set to a value (`some (some v)`). -/
structure TodoUpdate where
  title : Option (Option String)
  description : Option (Option String)
  state : Option (Option TodoState)
deriving DecidableEq, Repr

/-- Whether the dumped body sets any field to an explicit `null`: such a
field is written as SQL NULL into a NOT NULL column, so the flush raises
`IntegrityError`. -/
def TodoUpdate.hasNullField (upd : TodoUpdate) : Bool :=
  upd.title == some none || upd.description == some none || upd.state == some none

/-- The value a single column holds after the `setattr` loop when the
body carries no explicit null: a field present with a value overwrites,
an absent field leaves the old value. -/
def appliedField {α : Type} (field : Option (Option α)) (old : α) : α :=
  match field with
  | some (some v) => v
  | _ => old

/-- The `setattr` loop of src/fastapi_zero/routers/todos.py `patch_todo`
on a body with no explicit-null field: each field present in the dumped
body overwrites the row's field; absent fields are untouched. -/
def applyTodoUpdate (upd : TodoUpdate) (t : TodoRec) : TodoRec :=
  { t with
    title := appliedField upd.title t.title
    description := appliedField upd.description t.description
    state := appliedField upd.state t.state }

/-- The 404 raised by `patch_todo` and `delete_todo` when no row matches
`Todo.id == todo_id, Todo.user_id == user.id`. -/
def task_not_found : HTTPErr := ⟨404, "Task not found."⟩

/-- Outcome of `patch_todo`: the updated row, a raised `HTTPException`,
or the store's `IntegrityError` escaping the handler uncaught (the
handler catches nothing around its commit). -/
inductive TodoPatchResult where
  | ok (t : TodoRec)
  | httpError (e : HTTPErr)
  | uncaughtIntegrityError
deriving DecidableEq, Repr

/-- src/fastapi_zero/routers/todos.py `patch_todo`: looks up the first
todo with the given id owned by the caller; absence gives the 404; else
the present fields are applied by `setattr` and the commit flushes.  A
field present as explicit `null` sets a NOT NULL column (models.py maps
title/description/state as non-nullable) to None — it always differs
from the committed value, so the flush emits the UPDATE and the store
raises `IntegrityError`, which nothing catches: the transaction aborts
and no field change is applied.  Otherwise, SQLAlchemy's unit of work
emits an UPDATE only when some column's new value differs from its
committed value, and only that UPDATE fires the `onupdate=func.now()`
refresh of `updated_at` (src/fastapi_zero/models.py); a body that leaves
every column at its current value therefore writes nothing. -/
def patch_todo (db : List TodoRec) (todo_id user_id : Nat) (upd : TodoUpdate)
    (now : Nat) : TodoPatchResult × List TodoRec :=
  match db.find? (fun t => t.id == todo_id && t.user_id == user_id) with
  | none => (.httpError task_not_found, db)
  | some t =>
    if upd.hasNullField then
      (.uncaughtIntegrityError, db)
    else
      let t' := applyTodoUpdate upd t
      if t' = t then
        (.ok t, db)
      else
        let t'' := { t' with updated_at := now }
        (.ok t'', db.map (fun r => if r.id = t.id then t'' else r))

/-- src/fastapi_zero/routers/todos.py `delete_todo`: same ownership-scoped
lookup as `patch_todo`; absence gives the 404, otherwise the row is
deleted and a success message returned. -/
def delete_todo (db : List TodoRec) (todo_id user_id : Nat) :
    Except HTTPErr String × List TodoRec :=
  match db.find? (fun t => t.id == todo_id && t.user_id == user_id) with
  | none => (.error task_not_found, db)
  | some t =>
    (.ok "Task has been deleted successfully", db.erase t)

/-- SQL `LIKE` pattern matching over characters, as PostgreSQL (which
the repository's store is, per its test setup) evaluates the patterns
this application builds: the default escape character `\\` makes the
next pattern character match literally, `%` matches any (possibly empty)
sequence, `_` matches exactly one character, and any other character
matches itself.  A pattern ending in a bare escape character is an error
in PostgreSQL; the patterns this application builds (`'%' || s || '%'`)
never end that way — the trailing `%` either closes the pattern or is
consumed by a preceding escape — and we give that unreachable case the
value `false`. -/
def likeMatch : List Char → List Char → Bool
  | [], t => t.isEmpty
  | c :: p, t =>
    if c = '\\' then
      match p, t with
      | e :: p', d :: t' => (e = d) && likeMatch p' t'
      | _, _ => false
    else if c = '%' then (List.tails t).any (fun t' => likeMatch p t')
    else
      match t with
      | [] => false
      | d :: t' => (c = '_' || c = d) && likeMatch p t'

/-- SQLAlchemy `column.contains(s)` as this application uses it
(`autoescape` left at its default `False`): the SQL predicate
`column LIKE '%' || s || '%'`, with `s` passed through verbatim, so `%`,
`_` and the escape character `\\` inside `s` keep their LIKE meaning. -/
def likeContains (column : String) (s : String) : Bool :=
  likeMatch ('%' :: (s.data ++ ['%'])) column.data

/-- src/fastapi_zero/schemas.py `FilterTodo` after validation: the
pagination fields plus optional title/description/state filters (the
schema also requires a provided title filter to have at least 3
characters; that boundary check does not change the store semantics
below). -/
structure FilterTodo where
  offset : Nat
  limit : Nat
  title : Option String
  description : Option String
  state : Option TodoState
deriving DecidableEq, Repr

/-- src/fastapi_zero/routers/todos.py `list_todos`: restricts to the
caller's rows, then conditionally chains the filters — `if
todo_filter.title:` is Python truthiness, so an absent *or empty* title
(likewise description) skips its filter, while a `TodoState` value, a
nonempty string enum, is always truthy — and finally applies
`limit`/`offset` (SQL applies OFFSET before LIMIT). -/
def list_todos (db : List TodoRec) (user_id : Nat) (f : FilterTodo) : List TodoRec :=
  let q0 : List TodoRec := db.filter (fun t => t.user_id == user_id)
  let q1 : List TodoRec := match f.title with
    | some s => if s.isEmpty then q0 else q0.filter (fun t => likeContains t.title s)
    | none => q0
  let q2 : List TodoRec := match f.description with
    | some s => if s.isEmpty then q1 else q1.filter (fun t => likeContains t.description s)
    | none => q1
  let q3 : List TodoRec := match f.state with
    | some st => q2.filter (fun t => t.state == st)
    | none => q2
  (q3.drop f.offset).take f.limit

/-- The task-listing semantics in the words of the spec (section 4.5):
only the caller's tasks, title/description filters as case-sensitive
substring matches combined by logical AND, state filter as exact match,
and offset/limit pagination applied after filtering. -/
def list_todos_spec (db : List TodoRec) (user_id : Nat) (f : FilterTodo) : List TodoRec :=
  ((db.filter (fun t =>
      t.user_id == user_id
      && (match f.title with
          | some s => decide (s.data <:+: t.title.data)
          | none => true)
      && (match f.description with
          | some s => decide (s.data <:+: t.description.data)
          | none => true)
      && (match f.state with
          | some st => t.state == st
          | none => true))).drop f.offset).take f.limit

/-- Auxiliary: `dropWhile` skips a whole prefix on which the predicate
holds. -/
theorem dropWhile_append_of_forall {p : Char → Bool} :
    ∀ {l₁ l₂ : List Char}, (∀ x ∈ l₁, p x = true) →
      (l₁ ++ l₂).dropWhile p = l₂.dropWhile p := by
  intro l₁
  induction l₁ with
  | nil => intro l₂ _; rfl
  | cons c l ih =>
    intro l₂ h
    have hc : p c = true := h c (by simp)
    simp [List.dropWhile, hc]
    exact ih (fun x hx => h x (by simp [hx]))

/-- C1: the authentication gate answers the uniform 401
"Could not validate credentials" on malformed tokens, bad signatures,
missing subjects and unknown subject emails — but an expired, correctly
signed token does NOT reach that error: PyJWT raises
`ExpiredSignatureError`, which is not a subclass of the only exception
the code catches (`DecodeError`), so it escapes `get_current_user`
uncaught instead of producing the 401 the claim (and the repository's own
test suite) requires. -/
theorem C1_expired_token_escapes_auth_gate :
    get_current_user [] (.malformed "invalid_token") 0
      = .httpError credentials_exception
    ∧ get_current_user [] (.jwt "HS256" ⟨some "a@b", some 9999⟩ "other-key") 0
      = .httpError credentials_exception
    ∧ get_current_user [] (.jwt "HS256" ⟨none, some 9999⟩ "my-secret-key") 0
      = .httpError credentials_exception
    ∧ get_current_user []
        (.jwt "HS256" ⟨some "ghost@example.com", some 9999⟩ "my-secret-key") 0
      = .httpError credentials_exception
    ∧ get_current_user [] (.jwt "HS256" ⟨some "a@b", some 1800⟩ "my-secret-key") 1800
      = .uncaught .expiredSignature
    ∧ (AuthResult.uncaught .expiredSignature ≠ .httpError credentials_exception) := by
  refine ⟨rfl, by decide, by decide, by decide, by decide, by decide⟩

/-- C2: round trip through `create_access_token` and the validation step
of `get_current_user`, with the clock read at the validate call: a token
for alice issued at time 0 authenticates alice when validated at
1799 s (strictly inside the 30-minute TTL), but at 1800 s — exactly
issue + TTL — validation does not fail with an Expired/Unauthorized
outcome as the claim requires: the uncaught `ExpiredSignatureError`
escapes the gate as an unhandled error. -/
theorem C2_token_roundtrip_ttl_behavior :
    get_current_user [⟨1, "alice", "alice@example.com", "h", 0, 0⟩]
        (create_access_token (some "alice@example.com") 0) 1799
      = .ok ⟨1, "alice", "alice@example.com", "h", 0, 0⟩
    ∧ get_current_user [⟨1, "alice", "alice@example.com", "h", 0, 0⟩]
        (create_access_token (some "alice@example.com") 0) 1800
      = .uncaught .expiredSignature := by
  exact ⟨by decide, by decide⟩

/-- C10: a correctly signed, unexpired token whose payload carries
`sub = ""` is rejected with the same 401 credentials error as a token
with no `sub` at all, whatever the user store holds — the empty subject
is caught by the falsiness check before any lookup, so it never
authenticates. -/
theorem C10_empty_subject_rejected (db : List UserRec) (now : Nat)
    (e : Option Nat) (h : ∀ v, e = some v → now < v) :
    get_current_user db (.jwt ALGORITHM ⟨some "", e⟩ SECRET_KEY) now
      = .httpError credentials_exception
    ∧ get_current_user db (.jwt ALGORITHM ⟨some "", e⟩ SECRET_KEY) now
      = get_current_user db (.jwt ALGORITHM ⟨none, e⟩ SECRET_KEY) now := by
  cases e with
  | none => simp [get_current_user, jwtDecode]
  | some v =>
    have hv : ¬ v ≤ now := Nat.not_le.mpr (h v rfl)
    simp [get_current_user, jwtDecode, hv]

/-- Witness for C10 at a concrete signed token (`exp` 100, clock 0,
empty store). -/
theorem C10_empty_subject_rejected_witness :
    get_current_user [] (.jwt ALGORITHM ⟨some "", some 100⟩ SECRET_KEY) 0
      = .httpError credentials_exception
    ∧ get_current_user [] (.jwt ALGORITHM ⟨some "", some 100⟩ SECRET_KEY) 0
      = get_current_user [] (.jwt ALGORITHM ⟨none, some 100⟩ SECRET_KEY) 0 :=
  C10_empty_subject_rejected [] 0 (some 100)
    (by intro v hv; cases hv; decide)

/-- C3: hasher contract — verifying a password against its own digest
succeeds for every salt; verifying any other password against that digest
fails; and a string that does not even parse as a digest verifies to
`false` rather than an error. -/
theorem C3_password_hasher_contract (salt p q d : String)
    (hq : q ≠ p) (hd : d.data.head? ≠ some '$') :
    verify_password p (get_password_hash salt p) = true
    ∧ verify_password q (get_password_hash salt p) = false
    ∧ verify_password p d = false := by
  have hdrop : ∀ r : String,
      verify_password r (get_password_hash salt p)
        = (('$' :: p.data) == ('$' :: r.data)) := by
    intro r
    have h1 : verify_password r (get_password_hash salt p)
        = (((salt.data.filter (fun c => c ≠ '$')) ++ '$' :: p.data).dropWhile
            (fun c => c ≠ '$') == '$' :: r.data) := rfl
    rw [h1, dropWhile_append_of_forall
      (fun x hx => (List.mem_filter.mp hx).2)]
    simp [List.dropWhile]
  refine ⟨?_, ?_, ?_⟩
  · rw [hdrop p]; simp
  · rw [hdrop q]
    simp only [beq_eq_false_iff_ne, ne_eq, List.cons.injEq, true_and]
    intro hpq
    exact hq (String.ext hpq.symm)
  · have h1 : verify_password p d = (match d.data with
        | '$' :: rest => ((rest.dropWhile (fun c => c ≠ '$')) == '$' :: p.data)
        | _ => false) := rfl
    rw [h1]
    cases hdd : d.data with
    | nil => rfl
    | cons c rest =>
      have hc : c ≠ '$' := by
        intro hceq
        apply hd
        rw [hdd, hceq]
        rfl
      split
      · next heq =>
        injection heq with h2 h3
        exact absurd h2 hc
      · rfl

/-- Witness for C3 at concrete strings. -/
theorem C3_password_hasher_contract_witness :
    verify_password "hunter2" (get_password_hash "na$cl" "hunter2") = true
    ∧ verify_password "letmein" (get_password_hash "na$cl" "hunter2") = false
    ∧ verify_password "hunter2" "garbage" = false :=
  C3_password_hasher_contract "na$cl" "hunter2" "letmein" "garbage"
    (by decide) (by decide)

/-- C6: user update and delete by a caller whose id differs from the
target id fail with 403 "Not enough permissions" whatever the payload and
whatever the store holds, and leave both the user store and the todo
store untouched. -/
theorem C6_user_mutation_requires_self (db : List UserRec)
    (todos : List TodoRec) (user_id : Nat)
    (username email password : String) (current : UserRec)
    (salt : String) (now : Nat) (h : current.id ≠ user_id) :
    update_user db user_id username email password current salt now
      = (.error ⟨403, "Not enough permissions"⟩, db)
    ∧ delete_user db todos user_id current
      = (.error ⟨403, "Not enough permissions"⟩, db, todos) := by
  constructor
  · simp [update_user, h]
  · simp [delete_user, h]

/-- Witness for C6: caller id 1 against target id 2. -/
theorem C6_user_mutation_requires_self_witness :
    update_user [⟨1, "u", "u@e", "h", 0, 0⟩] 2 "n" "n@e" "pw"
        ⟨1, "u", "u@e", "h", 0, 0⟩ "s" 9
      = (.error ⟨403, "Not enough permissions"⟩, [⟨1, "u", "u@e", "h", 0, 0⟩])
    ∧ delete_user [⟨1, "u", "u@e", "h", 0, 0⟩] [] 2 ⟨1, "u", "u@e", "h", 0, 0⟩
      = (.error ⟨403, "Not enough permissions"⟩, [⟨1, "u", "u@e", "h", 0, 0⟩], []) :=
  C6_user_mutation_requires_self [⟨1, "u", "u@e", "h", 0, 0⟩] [] 2 "n" "n@e" "pw"
    ⟨1, "u", "u@e", "h", 0, 0⟩ "s" 9 (by decide)

/-- C4 counterexample: with identity 1 = (username "a", email "x@x") and
identity 2 = (username "b", email "y@y") stored, a request for username
"b" (taken, by identity 2) and email "x@x" (taken, by identity 1) is
rejected with the EMAIL conflict, because the single pre-check row the
query returns is identity 1 — so the username conflict is not the one
reported even though the username is taken. -/
theorem C4_counterexample_cross_identity_conflict :
    create_user [⟨1, "a", "x@x", "h1", 0, 0⟩, ⟨2, "b", "y@y", "h2", 0, 0⟩]
        "b" "x@x" "pw" "s" 3 5
      = (.error ⟨409, "Email already exists"⟩,
         [⟨1, "a", "x@x", "h1", 0, 0⟩, ⟨2, "b", "y@y", "h2", 0, 0⟩])
    ∧ (⟨2, "b", "y@y", "h2", 0, 0⟩ : UserRec).username = "b" := by
  exact ⟨rfl, rfl⟩

/-- C4 (amended): user creation resolves conflicts against the first
stored identity matching the requested username or email: if that
identity holds the username, the username conflict is reported (so
username takes priority whenever one identity holds both); otherwise that
identity holds the email and the email conflict is reported — even if a
later identity holds the username; only when no identity matches either
field is a new identity persisted.  The store is unchanged on conflict. -/
theorem C4_create_user_conflict_resolution (db : List UserRec)
    (username email password salt : String) (newId now : Nat) :
    (db.find? (fun r => r.username == username || r.email == email) = none →
       create_user db username email password salt newId now
         = (.ok ⟨newId, username, email, get_password_hash salt password, now, now⟩,
            db ++ [⟨newId, username, email, get_password_hash salt password, now, now⟩]))
    ∧ (∀ r, db.find? (fun r => r.username == username || r.email == email) = some r →
        (r.username = username →
           create_user db username email password salt newId now
             = (.error ⟨409, "Username already exists"⟩, db))
        ∧ (r.username ≠ username →
           r.email = email
           ∧ create_user db username email password salt newId now
             = (.error ⟨409, "Email already exists"⟩, db))) := by
  refine ⟨?_, ?_⟩
  · intro h
    simp [create_user, h]
  · intro r hr
    have hp := List.find?_some hr
    refine ⟨?_, ?_⟩
    · intro hu
      simp [create_user, hr, hu]
    · intro hu
      have hbu : (r.username == username) = false := by
        simpa using hu
      have he : r.email = email := by
        have hp' : r.username = username ∨ r.email = email := by simpa using hp
        rcases hp' with h1 | h2
        · exact absurd h1 hu
        · exact h2
      exact ⟨he, by simp [create_user, hr, hbu, he]⟩

/-- Witness for C4 (amended): a same-username conflict and a clean
creation, concretely. -/
theorem C4_create_user_conflict_resolution_witness :
    create_user [⟨1, "a", "x@x", "h1", 0, 0⟩] "a" "z@z" "pw" "s" 2 7
      = (.error ⟨409, "Username already exists"⟩, [⟨1, "a", "x@x", "h1", 0, 0⟩])
    ∧ create_user [] "n" "n@n" "pw" "s" 1 7
      = (.ok ⟨1, "n", "n@n", get_password_hash "s" "pw", 7, 7⟩,
         [⟨1, "n", "n@n", get_password_hash "s" "pw", 7, 7⟩]) :=
  ⟨((C4_create_user_conflict_resolution [⟨1, "a", "x@x", "h1", 0, 0⟩]
        "a" "z@z" "pw" "s" 2 7).2 ⟨1, "a", "x@x", "h1", 0, 0⟩ (by decide)).1 rfl,
   (C4_create_user_conflict_resolution [] "n" "n@n" "pw" "s" 1 7).1 rfl⟩

/-- C5: task patch and task delete are ownership-scoped — when no stored
task has the requested id AND the caller as owner (which covers both a
wholly nonexistent id and an id owned by someone else), both operations
return the same 404 "Task not found." and leave the store unchanged,
never a 403 and never success; and a task the caller owns is never
answered with that 404. -/
theorem C5_task_ops_ownership_scoped (db : List TodoRec)
    (todo_id user_id : Nat) (upd : TodoUpdate) (now : Nat) :
    ((∀ t ∈ db, ¬(t.id = todo_id ∧ t.user_id = user_id)) →
       patch_todo db todo_id user_id upd now = (.httpError task_not_found, db)
       ∧ delete_todo db todo_id user_id = (.error task_not_found, db))
    ∧ (∀ t ∈ db, t.id = todo_id → t.user_id = user_id →
       (patch_todo db todo_id user_id upd now).1 ≠ .httpError task_not_found
       ∧ (delete_todo db todo_id user_id).1 ≠ .error task_not_found) := by
  refine ⟨?_, ?_⟩
  · intro h
    have hf : db.find? (fun t => t.id == todo_id && t.user_id == user_id) = none := by
      rw [List.find?_eq_none]
      intro x hx
      simpa using h x hx
    exact ⟨by simp [patch_todo, hf], by simp [delete_todo, hf]⟩
  · intro t ht hid huid
    have hs : (db.find? (fun t => t.id == todo_id && t.user_id == user_id)).isSome := by
      rw [List.find?_isSome]
      exact ⟨t, ht, by simp [hid, huid]⟩
    obtain ⟨t', ht'⟩ := Option.isSome_iff_exists.mp hs
    constructor
    · simp only [patch_todo, ht']
      split
      · simp
      · split <;> simp
    · simp [delete_todo, ht']

/-- Witness for C5: a task owned by user 9 is 404 for caller 7 (both
operations, store untouched) and not 404 for its owner. -/
theorem C5_task_ops_ownership_scoped_witness :
    (patch_todo [⟨5, "t", "d", TodoState.todo, 9, 0, 0⟩] 5 7 ⟨none, none, none⟩ 3
       = (.httpError task_not_found, [⟨5, "t", "d", TodoState.todo, 9, 0, 0⟩])
     ∧ delete_todo [⟨5, "t", "d", TodoState.todo, 9, 0, 0⟩] 5 7
       = (.error task_not_found, [⟨5, "t", "d", TodoState.todo, 9, 0, 0⟩]))
    ∧ ((patch_todo [⟨5, "t", "d", TodoState.todo, 9, 0, 0⟩] 5 9 ⟨none, none, none⟩ 3).1
         ≠ .httpError task_not_found
       ∧ (delete_todo [⟨5, "t", "d", TodoState.todo, 9, 0, 0⟩] 5 9).1
         ≠ .error task_not_found) :=
  ⟨(C5_task_ops_ownership_scoped [⟨5, "t", "d", TodoState.todo, 9, 0, 0⟩] 5 7
      ⟨none, none, none⟩ 3).1 (by decide),
   (C5_task_ops_ownership_scoped [⟨5, "t", "d", TodoState.todo, 9, 0, 0⟩] 5 9
      ⟨none, none, none⟩ 3).2 ⟨5, "t", "d", TodoState.todo, 9, 0, 0⟩
      (by decide) rfl rfl⟩

/-- C8 counterexample, two failures of the claim as stated.  First, an
empty partial body on a task owned by the caller changes no field — but
it also does NOT refresh the update timestamp: with the stored
`updated_at = 5` and the patch running at time 99, the task keeps
`updated_at = 5`, because nothing is written and so the store's
`onupdate` clock never fires; the claim asserts the update timestamp is
refreshed for every partial body.  Second, a body whose `title` field is
present as an explicit `null` does not "overwrite exactly the fields
present": the NOT NULL column rejects it, the uncaught `IntegrityError`
escapes, and nothing at all is applied. -/
theorem C8_counterexample_empty_patch_timestamp :
    patch_todo [⟨1, "A", "B", TodoState.todo, 7, 5, 5⟩] 1 7 ⟨none, none, none⟩ 99
      = (.ok ⟨1, "A", "B", TodoState.todo, 7, 5, 5⟩,
         [⟨1, "A", "B", TodoState.todo, 7, 5, 5⟩])
    ∧ (⟨1, "A", "B", TodoState.todo, 7, 5, 5⟩ : TodoRec).updated_at ≠ 99
    ∧ patch_todo [⟨1, "A", "B", TodoState.todo, 7, 5, 5⟩] 1 7 ⟨some none, none, none⟩ 99
      = (.uncaughtIntegrityError, [⟨1, "A", "B", TodoState.todo, 7, 5, 5⟩]) := by
  exact ⟨rfl, by decide, rfl⟩

/-- C8 (amended): for a task the caller owns, a body free of
explicit-null fields overwrites exactly the fields present, leaves
absent fields and the id, owner id and creation timestamp unchanged, and
refreshes the update timestamp whenever the applied fields change the
row; a null-free body whose applied fields all equal the current values
— the empty body in particular — leaves the task entirely unchanged,
update timestamp included, and writes nothing; and a body with any field
present as explicit `null` raises the uncaught `IntegrityError` with
nothing applied. -/
theorem C8_patch_todo_frame (db : List TodoRec) (todo_id user_id : Nat)
    (upd : TodoUpdate) (now : Nat) (t : TodoRec)
    (hf : db.find? (fun x => x.id == todo_id && x.user_id == user_id) = some t) :
    (upd.hasNullField = false → applyTodoUpdate upd t = t →
       patch_todo db todo_id user_id upd now = (.ok t, db))
    ∧ (upd.hasNullField = false → applyTodoUpdate upd t ≠ t →
       ∃ t', patch_todo db todo_id user_id upd now
           = (.ok t', db.map (fun r => if r.id = t.id then t' else r))
         ∧ t'.title = appliedField upd.title t.title
         ∧ t'.description = appliedField upd.description t.description
         ∧ t'.state = appliedField upd.state t.state
         ∧ t'.id = t.id
         ∧ t'.user_id = t.user_id
         ∧ t'.created_at = t.created_at
         ∧ t'.updated_at = now)
    ∧ (upd.hasNullField = true →
       patch_todo db todo_id user_id upd now = (.uncaughtIntegrityError, db)) := by
  refine ⟨?_, ?_, ?_⟩
  · intro hn h
    simp [patch_todo, hf, hn, h]
  · intro hn h
    refine ⟨{ applyTodoUpdate upd t with updated_at := now },
            by simp [patch_todo, hf, hn, h], rfl, rfl, rfl, rfl, rfl, rfl, rfl⟩
  · intro hn
    simp [patch_todo, hf, hn]

/-- Witness for C8 (amended): the empty body, a title-only body, and a
title-null body on a concrete task. -/
theorem C8_patch_todo_frame_witness :
    patch_todo [⟨1, "A", "B", TodoState.todo, 7, 5, 5⟩] 1 7 ⟨none, none, none⟩ 99
      = (.ok ⟨1, "A", "B", TodoState.todo, 7, 5, 5⟩,
         [⟨1, "A", "B", TodoState.todo, 7, 5, 5⟩])
    ∧ (∃ t', patch_todo [⟨1, "A", "B", TodoState.todo, 7, 5, 5⟩] 1 7
          ⟨some (some "New"), none, none⟩ 99
        = (.ok t', [⟨1, "A", "B", TodoState.todo, 7, 5, 5⟩].map
            (fun r => if r.id = 1 then t' else r))
      ∧ t'.title = "New" ∧ t'.description = "B" ∧ t'.state = TodoState.todo
      ∧ t'.id = 1 ∧ t'.user_id = 7 ∧ t'.created_at = 5 ∧ t'.updated_at = 99)
    ∧ patch_todo [⟨1, "A", "B", TodoState.todo, 7, 5, 5⟩] 1 7
        ⟨none, some none, none⟩ 99
      = (.uncaughtIntegrityError, [⟨1, "A", "B", TodoState.todo, 7, 5, 5⟩]) :=
  ⟨(C8_patch_todo_frame [⟨1, "A", "B", TodoState.todo, 7, 5, 5⟩] 1 7
      ⟨none, none, none⟩ 99 ⟨1, "A", "B", TodoState.todo, 7, 5, 5⟩ rfl).1 rfl rfl,
   (C8_patch_todo_frame [⟨1, "A", "B", TodoState.todo, 7, 5, 5⟩] 1 7
      ⟨some (some "New"), none, none⟩ 99 ⟨1, "A", "B", TodoState.todo, 7, 5, 5⟩ rfl).2.1
      rfl (by decide),
   (C8_patch_todo_frame [⟨1, "A", "B", TodoState.todo, 7, 5, 5⟩] 1 7
      ⟨none, some none, none⟩ 99 ⟨1, "A", "B", TodoState.todo, 7, 5, 5⟩ rfl).2.2 rfl⟩

/-- C9: the user listing is FilterPage-validated pagination over the
store in insertion order — defaults are offset 0 and limit 10, a negative
offset or limit is rejected by validation before any query, and for a
validated filter the result is a sublist of the store (so in insertion
order), has at most `limit` elements, and its i-th element is the store's
(offset + i)-th element. -/
theorem C9_read_users_pagination (db : List UserRec) (cur : UserRec)
    (offset? limit? : Option Int) (f : FilterPage) (i : Nat) :
    FilterPage.validate none none = .ok ⟨0, 10⟩
    ∧ (offset?.getD 0 < 0 ∨ limit?.getD 10 < 0 →
        ∀ g, FilterPage.validate offset? limit? ≠ .ok g)
    ∧ List.Sublist (read_users db cur f) db
    ∧ (read_users db cur f).length ≤ f.limit
    ∧ (i < f.limit → (read_users db cur f)[i]? = db[f.offset + i]?) := by
  refine ⟨rfl, ?_, ?_, ?_, ?_⟩
  · intro h g
    rcases h with h | h
    · simp [FilterPage.validate, h]
    · simp only [FilterPage.validate]
      split
      · simp
      · simp [h]
  · exact (List.take_sublist _ _).trans (List.drop_sublist _ _)
  · exact List.length_take_le _ _
  · intro hi
    show ((db.drop f.offset).take f.limit)[i]? = db[f.offset + i]?
    rw [List.getElem?_take_of_lt hi, List.getElem?_drop]

/-- Witness for C9: three stored users, offset 1 and limit 2; plus the
rejection of a negative offset. -/
theorem C9_read_users_pagination_witness :
    (∀ g, FilterPage.validate (some (-1)) none ≠ .ok g)
    ∧ (read_users [⟨1, "a", "a@a", "h", 0, 0⟩, ⟨2, "b", "b@b", "h", 0, 0⟩,
         ⟨3, "c", "c@c", "h", 0, 0⟩] ⟨1, "a", "a@a", "h", 0, 0⟩ ⟨1, 2⟩)[0]?
      = [⟨1, "a", "a@a", "h", 0, 0⟩, ⟨2, "b", "b@b", "h", 0, 0⟩,
         ⟨3, "c", "c@c", "h", 0, 0⟩][1 + 0]? :=
  ⟨(C9_read_users_pagination [] ⟨1, "a", "a@a", "h", 0, 0⟩ (some (-1)) none ⟨0, 0⟩ 0).2.1
      (by decide),
   (C9_read_users_pagination [⟨1, "a", "a@a", "h", 0, 0⟩, ⟨2, "b", "b@b", "h", 0, 0⟩,
       ⟨3, "c", "c@c", "h", 0, 0⟩] ⟨1, "a", "a@a", "h", 0, 0⟩ none none ⟨1, 2⟩ 0).2.2.2.2
      (by decide)⟩

/-- Unfolding `likeMatch` at a leading `%`: the rest of the pattern must
match some suffix of the text. -/
theorem likeMatch_pct (p t : List Char) :
    likeMatch ('%' :: p) t = (List.tails t).any (fun t' => likeMatch p t') := by
  cases p <;> cases t <;> simp [likeMatch]

/-- Propositional form of `likeMatch_pct`. -/
theorem likeMatch_pct_iff (p t : List Char) :
    likeMatch ('%' :: p) t = true ↔ ∃ t', t' <:+ t ∧ likeMatch p t' = true := by
  rw [likeMatch_pct, List.any_eq_true]
  simp [List.mem_tails]

/-- A lone `%` matches any text. -/
theorem likeMatch_pct_lone (t : List Char) : likeMatch ['%'] t = true :=
  (likeMatch_pct_iff [] t).mpr ⟨[], List.nil_suffix, rfl⟩

/-- Unfolding `likeMatch` at a pattern head that is neither the escape
character nor `%`. -/
theorem likeMatch_cons_of_ne (c : Char) (p t : List Char)
    (hce : c ≠ '\\') (hc : c ≠ '%') :
    likeMatch (c :: p) t = match t with
      | [] => false
      | d :: t' => (c = '_' || c = d) && likeMatch p t' := by
  cases p <;> cases t <;> simp [likeMatch, hc, hce]

/-- A pattern segment free of wildcards and of the escape character
consumes exactly itself: matching `s ++ p` against `t` is matching `p`
against the remainder of `t` after the literal prefix `s`. -/
theorem likeMatch_append_lit :
    ∀ (s : List Char), (∀ c ∈ s, c ≠ '%' ∧ c ≠ '_' ∧ c ≠ '\\') → ∀ (p t : List Char),
      (likeMatch (s ++ p) t = true ↔ ∃ t', t = s ++ t' ∧ likeMatch p t' = true) := by
  intro s
  induction s with
  | nil =>
    intro _ p t
    simp
  | cons c s ih =>
    intro hs p t
    have hc := hs c (List.mem_cons_self c s)
    have hs' : ∀ x ∈ s, x ≠ '%' ∧ x ≠ '_' ∧ x ≠ '\\' :=
      fun x hx => hs x (List.mem_cons_of_mem c hx)
    rw [List.cons_append, likeMatch_cons_of_ne c (s ++ p) t hc.2.2 hc.1]
    cases t with
    | nil => simp
    | cons d t₂ =>
      simp only [Bool.and_eq_true, Bool.or_eq_true, decide_eq_true_eq,
        List.cons.injEq]
      rw [ih hs' p t₂]
      constructor
      · rintro ⟨h1 | h1, t', ht', hp⟩
        · exact absurd h1 hc.2.1
        · exact ⟨t', by rw [← h1, ht', List.cons_append], hp⟩
      · rintro ⟨t', heq, hp⟩
        injection heq with h1 h2
        exact ⟨Or.inr h1.symm, t', h2, hp⟩

/-- For a filter string without `%`, `_` or the escape character, the
SQL predicate `column LIKE '%' || s || '%'` holds exactly when `s`
occurs as a (case-sensitive, contiguous) substring of the column. -/
theorem likeContains_iff_substring (col s : String)
    (hs : ∀ c ∈ s.data, c ≠ '%' ∧ c ≠ '_' ∧ c ≠ '\\') :
    likeContains col s = true ↔ s.data <:+: col.data := by
  unfold likeContains
  rw [likeMatch_pct_iff]
  constructor
  · rintro ⟨t', hsuf, hm⟩
    rw [likeMatch_append_lit s.data hs ['%'] t'] at hm
    obtain ⟨t'', ht'', _⟩ := hm
    obtain ⟨a, ha⟩ := hsuf
    exact ⟨a, t'', by rw [← ha, ht'']; simp [List.append_assoc]⟩
  · rintro ⟨a, b, hab⟩
    refine ⟨s.data ++ b, ⟨a, by rw [← hab]; simp [List.append_assoc]⟩, ?_⟩
    rw [likeMatch_append_lit s.data hs ['%'] (s.data ++ b)]
    exact ⟨b, rfl, likeMatch_pct_lone b⟩

/-- Boolean form of `likeContains_iff_substring`. -/
theorem likeContains_eq_decide (col s : String)
    (hs : ∀ c ∈ s.data, c ≠ '%' ∧ c ≠ '_' ∧ c ≠ '\\') :
    likeContains col s = decide (s.data <:+: col.data) := by
  by_cases h : s.data <:+: col.data
  · rw [decide_eq_true h]
    exact (likeContains_iff_substring col s hs).mpr h
  · rw [decide_eq_false h]
    cases hb : likeContains col s with
    | false => rfl
    | true => exact absurd ((likeContains_iff_substring col s hs).mp hb) h

/-- The LIKE predicate with an empty filter string accepts every column
value (pattern `%%`), which is why skipping the filter for a falsy empty
string — as the Python truthiness check does — changes nothing. -/
theorem likeContains_empty (col : String) : likeContains col "" = true := by
  unfold likeContains
  rw [show ('%' :: (("" : String).data ++ ['%'])) = ['%', '%'] from rfl]
  rw [likeMatch_pct_iff]
  exact ⟨col.data, List.suffix_refl _, likeMatch_pct_lone _⟩

/-- The escape character in a filter string is honoured by the model as
PostgreSQL does: the filter `a\\b` (backslash escaping the `b`) matches a
column containing `ab`, and does NOT match a column containing the
literal three characters `a`, backslash, `b`. -/
theorem likeContains_backslash_escapes :
    likeContains "xaby" "a\\b" = true ∧ likeContains "a\\b" "a\\b" = false := by
  exact ⟨by decide, by decide⟩

/-- The title/description filter component as a single predicate: an
absent filter accepts everything, a present one is the LIKE containment
check (an empty present filter is skipped by the code's truthiness test,
which `likeContains_empty` shows is the same as applying it). -/
def condLike (o : Option String) (col : String) : Bool :=
  match o with
  | some s => likeContains col s
  | none => true

/-- The state filter component as a single predicate. -/
def condState (o : Option TodoState) (st : TodoState) : Bool :=
  match o with
  | some v => st == v
  | none => true

/-- The truthiness-guarded title filter of `list_todos` collapses to an
unconditional filter. -/
theorem collapse_title (l : List TodoRec) (s : String) :
    (if s.isEmpty then l else l.filter (fun t => likeContains t.title s))
      = l.filter (fun t => likeContains t.title s) := by
  by_cases h : s.isEmpty
  · rw [if_pos h]
    have hs : s = "" := (String.isEmpty_iff s).mp h
    subst hs
    exact (List.filter_eq_self.mpr (fun a _ => likeContains_empty a.title)).symm
  · rw [if_neg h]

/-- The truthiness-guarded description filter of `list_todos` collapses
to an unconditional filter. -/
theorem collapse_desc (l : List TodoRec) (s : String) :
    (if s.isEmpty then l else l.filter (fun t => likeContains t.description s))
      = l.filter (fun t => likeContains t.description s) := by
  by_cases h : s.isEmpty
  · rw [if_pos h]
    have hs : s = "" := (String.isEmpty_iff s).mp h
    subst hs
    exact (List.filter_eq_self.mpr (fun a _ => likeContains_empty a.description)).symm
  · rw [if_neg h]

/-- The filter chain of `list_todos` is one conjunctive filter followed
by the offset/limit slice. -/
theorem list_todos_eq_filter (db : List TodoRec) (uid : Nat) (f : FilterTodo) :
    list_todos db uid f
      = ((db.filter (fun t => ((t.user_id == uid && condLike f.title t.title)
            && condLike f.description t.description)
            && condState f.state t.state)).drop f.offset).take f.limit := by
  rcases f with ⟨off, lim, title, desc, st⟩
  cases title <;> cases desc <;> cases st <;>
    simp only [list_todos] <;>
    (try rw [collapse_title]) <;>
    (try rw [collapse_desc]) <;>
    refine congrArg (List.take lim) (congrArg (List.drop off) ?_) <;>
    (try simp only [List.filter_filter]) <;>
    exact List.filter_congr (fun x _ => by
      simp [condLike, condState, Bool.and_true, Bool.true_and, Bool.and_comm,
        Bool.and_left_comm, Bool.and_assoc])

/-- C7 counterexample: the stored task titled "Tod" is NOT a substring
match for the filter string "T_d", yet `list_todos` returns it — the
filter string is passed into SQL LIKE unescaped, so `_` acts as a
single-character wildcard instead of a literal; the claim's "keeps
exactly the tasks whose title contains the filter string as a
case-sensitive substring" is therefore false as stated. -/
theorem C7_counterexample_like_wildcard :
    list_todos [⟨1, "Tod", "", TodoState.todo, 7, 0, 0⟩] 7
        ⟨0, 10, some "T_d", none, none⟩
      = [⟨1, "Tod", "", TodoState.todo, 7, 0, 0⟩]
    ∧ list_todos_spec [⟨1, "Tod", "", TodoState.todo, 7, 0, 0⟩] 7
        ⟨0, 10, some "T_d", none, none⟩
      = []
    ∧ ¬ ("T_d".data <:+: "Tod".data) := by
  exact ⟨by decide, by decide, by decide⟩

/-- C7 (amended): for filter strings free of the SQL LIKE wildcards `%`
and `_` and of the default escape character, the listing is exactly the
claimed semantics — only the caller's tasks, title/description as
case-sensitive substring matches ANDed together, state as exact match,
and offset/limit pagination applied to the filtered sequence. -/
theorem C7_list_todos_filter_semantics (db : List TodoRec) (user_id : Nat)
    (f : FilterTodo)
    (ht : ∀ s, f.title = some s → ∀ c ∈ s.data, c ≠ '%' ∧ c ≠ '_' ∧ c ≠ '\\')
    (hd : ∀ s, f.description = some s → ∀ c ∈ s.data, c ≠ '%' ∧ c ≠ '_' ∧ c ≠ '\\') :
    list_todos db user_id f = list_todos_spec db user_id f := by
  rw [list_todos_eq_filter]
  unfold list_todos_spec
  refine congrArg (List.take f.limit) (congrArg (List.drop f.offset) ?_)
  apply List.filter_congr
  intro x hx
  have h1 : condLike f.title x.title = (match f.title with
      | some s => decide (s.data <:+: x.title.data)
      | none => true) := by
    cases hft : f.title with
    | none => rfl
    | some s => exact likeContains_eq_decide x.title s (ht s hft)
  have h2 : condLike f.description x.description = (match f.description with
      | some s => decide (s.data <:+: x.description.data)
      | none => true) := by
    cases hfd : f.description with
    | none => rfl
    | some s => exact likeContains_eq_decide x.description s (hd s hfd)
  rw [h1, h2]
  rfl

/-- Witness for C7 (amended): the spec's own example — five tasks titled
"Test Todo" among ten, filter title = "Test" (no wildcards) — where the
listing agrees with the substring semantics. -/
theorem C7_list_todos_filter_semantics_witness :
    list_todos
        [⟨1, "Test Todo", "d", TodoState.todo, 1, 0, 0⟩,
         ⟨2, "Test Todo", "d", TodoState.todo, 1, 0, 0⟩,
         ⟨3, "Test Todo", "d", TodoState.todo, 1, 0, 0⟩,
         ⟨4, "Test Todo", "d", TodoState.todo, 1, 0, 0⟩,
         ⟨5, "Test Todo", "d", TodoState.todo, 1, 0, 0⟩,
         ⟨6, "Other", "d", TodoState.todo, 1, 0, 0⟩,
         ⟨7, "Other", "d", TodoState.todo, 1, 0, 0⟩,
         ⟨8, "Other", "d", TodoState.todo, 1, 0, 0⟩,
         ⟨9, "Other", "d", TodoState.todo, 1, 0, 0⟩,
         ⟨10, "Other", "d", TodoState.todo, 1, 0, 0⟩] 1
        ⟨0, 10, some "Test", none, none⟩
      = list_todos_spec
        [⟨1, "Test Todo", "d", TodoState.todo, 1, 0, 0⟩,
         ⟨2, "Test Todo", "d", TodoState.todo, 1, 0, 0⟩,
         ⟨3, "Test Todo", "d", TodoState.todo, 1, 0, 0⟩,
         ⟨4, "Test Todo", "d", TodoState.todo, 1, 0, 0⟩,
         ⟨5, "Test Todo", "d", TodoState.todo, 1, 0, 0⟩,
         ⟨6, "Other", "d", TodoState.todo, 1, 0, 0⟩,
         ⟨7, "Other", "d", TodoState.todo, 1, 0, 0⟩,
         ⟨8, "Other", "d", TodoState.todo, 1, 0, 0⟩,
         ⟨9, "Other", "d", TodoState.todo, 1, 0, 0⟩,
         ⟨10, "Other", "d", TodoState.todo, 1, 0, 0⟩] 1
        ⟨0, 10, some "Test", none, none⟩ :=
  C7_list_todos_filter_semantics _ 1 ⟨0, 10, some "Test", none, none⟩
    (by intro s hs; cases hs; decide)
    (by intro s hs; cases hs)
